import Mathlib

/-!
Verification of `openmmforcefields/generators/system_generators.py`.

The Python module defines `SystemGenerator` (an orchestrator that selects a
small-molecule template generator, builds a system through the OpenMM engine,
and post-processes its forces) and `DummySystemGenerator` (an engine-free
parameterizer that enumerates bonds, angles and proper torsions from a raw
bond graph).  This file gives a shallow embedding of that module and proves
properties of it.  External collaborators (the OpenMM engine, the template
generator implementations living in `template_generators.py`) are modelled
from the specification and marked as such in their doc comments.
-/

/-! ## Data model: particle systems and forces -/

/-- An opaque small molecule handle (the embedding never inspects molecules). -/
abbrev Molecule := ℕ

/-- Per-particle parameters of a `NonbondedForce` (charge, sigma, epsilon). -/
structure NBParticle where
  charge : ℚ
  sigma : ℚ
  epsilon : ℚ
deriving DecidableEq

/-- A 1-4 exception entry of a `NonbondedForce`. -/
structure NBException where
  p1 : ℕ
  p2 : ℕ
  chargeProd : ℚ
  sigma : ℚ
  epsilon : ℚ
deriving DecidableEq

/-- A harmonic bond term: two particle indices, equilibrium length, stiffness. -/
structure BondTerm where
  p1 : ℕ
  p2 : ℕ
  r0 : ℚ
  K : ℚ
deriving DecidableEq

/-- A harmonic angle term: three particle indices, equilibrium angle, stiffness. -/
structure AngleTerm where
  p1 : ℕ
  p2 : ℕ
  p3 : ℕ
  theta0 : ℚ
  K : ℚ
deriving DecidableEq

/-- A periodic torsion term: four particle indices, periodicity, phase, barrier. -/
structure TorsionTerm where
  p1 : ℕ
  p2 : ℕ
  p3 : ℕ
  p4 : ℕ
  periodicity : ℕ
  phase : ℚ
  K : ℚ
deriving DecidableEq

/-- The OpenMM `Force` objects the Python module creates or inspects.  The
module dispatches on the class name of each force (`NonbondedForce`,
`PeriodicTorsionForce`), so each class is one constructor here. -/
inductive OMMForce where
  | customNonbonded (energy : String) (method : String) (cutoff : ℚ) (numParticles : ℕ)
  | nonbonded (particles : List NBParticle) (exceptions : List NBException)
  | harmonicBond (bonds : List BondTerm)
  | harmonicAngle (angles : List AngleTerm)
  | periodicTorsion (torsions : List TorsionTerm)
  | monteCarloBarostat (pressure : ℚ) (temperature : ℚ) (frequency : ℚ) (seed : ℤ)
deriving DecidableEq

/-- An OpenMM `System`: particle masses plus a list of forces. -/
structure SystemM where
  particles : List ℚ
  forces : List OMMForce
deriving DecidableEq

/-- An OpenMM `Topology` as the module reads it: a dense zero-based atom
index range and a list of bonds given as pairs of atom indices. -/
structure Topology where
  num_atoms : ℕ
  bonds : List (ℕ × ℕ)
deriving DecidableEq

/-! ## Bonded-term enumeration (`DummySystemGenerator.create_system`)

Source lines 342-349 build `bondedToAtom`, lines 361-375 build the unique
angles and lines 384-399 build the unique proper torsions.  Atoms are
handled by their integer indices throughout. -/

/-- One `bondedToAtom[i].add(j)` mutation of the per-atom neighbor sets. -/
def addNeighbor (l : List (Finset ℕ)) (i j : ℕ) : List (Finset ℕ) :=
  l.set i (insert j (l.getD i ∅))

/-- `bondedToAtom`: one neighbor set per atom, filled from both endpoints of
every bond (source lines 342-348). -/
def bondedToAtom (top : Topology) : List (Finset ℕ) :=
  top.bonds.foldl (fun l b => addNeighbor (addNeighbor l b.1 b.2) b.2 b.1)
    (List.replicate top.num_atoms ∅)

/-- Reading `bondedToAtom[i]`. -/
def adj (top : Topology) (i : ℕ) : Finset ℕ := (bondedToAtom top).getD i ∅

/-- The angles contributed by scanning a single bond in both directions
(the body of the loop at source lines 362-374): each neighbor of one bond
endpoint other than the opposite endpoint yields a canonicalized triple
whose outer atoms are in ascending order. -/
def anglesFromBond (A : ℕ → Finset ℕ) (b : ℕ × ℕ) : Finset (ℕ × ℕ × ℕ) :=
  ((A b.1).erase b.2).image (fun a => if a < b.2 then (a, b.1, b.2) else (b.2, b.1, a)) ∪
  ((A b.2).erase b.1).image (fun a => if b.1 < a then (b.1, b.2, a) else (a, b.2, b.1))

/-- `uniqueAngles` (source lines 361-374): union over all bonds. -/
def uniqueAngles (top : Topology) : Finset (ℕ × ℕ × ℕ) :=
  top.bonds.foldl (fun s b => s ∪ anglesFromBond (adj top) b) ∅

/-- Lexicographic order on angle triples, the order Python `sorted` uses. -/
def angleLe (x y : ℕ × ℕ × ℕ) : Prop :=
  x.1 < y.1 ∨ (x.1 = y.1 ∧ (x.2.1 < y.2.1 ∨ (x.2.1 = y.2.1 ∧ x.2.2 ≤ y.2.2)))

instance decAngleLe : DecidableRel angleLe := fun _ _ =>
  inferInstanceAs (Decidable (_ ∨ _))

instance : IsTrans (ℕ × ℕ × ℕ) angleLe := ⟨by intro a b c; unfold angleLe; omega⟩

instance : IsTotal (ℕ × ℕ × ℕ) angleLe := ⟨by intro a b; unfold angleLe; omega⟩

instance : IsAntisymm (ℕ × ℕ × ℕ) angleLe := ⟨by
  intro a b h1 h2
  unfold angleLe at h1 h2
  have h3 : a.1 = b.1 ∧ a.2.1 = b.2.1 ∧ a.2.2 = b.2.2 := by omega
  exact Prod.ext h3.1 (Prod.ext h3.2.1 h3.2.2)⟩

/-- `angles = sorted(list(uniqueAngles))` (source line 375). -/
def angles (top : Topology) : List (ℕ × ℕ × ℕ) :=
  Finset.sort angleLe (uniqueAngles top)

/-- The torsions contributed by extending a single angle at both ends
(the body of the loop at source lines 386-398). -/
def propersFromAngle (A : ℕ → Finset ℕ) (t : ℕ × ℕ × ℕ) : Finset (ℕ × ℕ × ℕ × ℕ) :=
  ((A t.1).filter (fun x => x ≠ t.1 ∧ x ≠ t.2.1 ∧ x ≠ t.2.2)).image
      (fun x => if x < t.2.2 then (x, t.1, t.2.1, t.2.2) else (t.2.2, t.2.1, t.1, x)) ∪
  ((A t.2.2).filter (fun x => x ≠ t.1 ∧ x ≠ t.2.1 ∧ x ≠ t.2.2)).image
      (fun x => if t.1 < x then (t.1, t.2.1, t.2.2, x) else (x, t.2.2, t.2.1, t.1))

/-- `uniquePropers` (source lines 385-398): union over all sorted angles. -/
def uniquePropers (top : Topology) : Finset (ℕ × ℕ × ℕ × ℕ) :=
  (angles top).foldl (fun s t => s ∪ propersFromAngle (adj top) t) ∅

/-- Lexicographic order on torsion quadruples. -/
def properLe (x y : ℕ × ℕ × ℕ × ℕ) : Prop :=
  x.1 < y.1 ∨ (x.1 = y.1 ∧ (x.2.1 < y.2.1 ∨ (x.2.1 = y.2.1 ∧
    (x.2.2.1 < y.2.2.1 ∨ (x.2.2.1 = y.2.2.1 ∧ x.2.2.2 ≤ y.2.2.2)))))

instance decProperLe : DecidableRel properLe := fun _ _ =>
  inferInstanceAs (Decidable (_ ∨ _))

instance : IsTrans (ℕ × ℕ × ℕ × ℕ) properLe := ⟨by intro a b c; unfold properLe; omega⟩

instance : IsTotal (ℕ × ℕ × ℕ × ℕ) properLe := ⟨by intro a b; unfold properLe; omega⟩

instance : IsAntisymm (ℕ × ℕ × ℕ × ℕ) properLe := ⟨by
  intro a b h1 h2
  unfold properLe at h1 h2
  have h3 : a.1 = b.1 ∧ a.2.1 = b.2.1 ∧ a.2.2.1 = b.2.2.1 ∧ a.2.2.2 = b.2.2.2 := by omega
  exact Prod.ext h3.1 (Prod.ext h3.2.1 (Prod.ext h3.2.2.1 h3.2.2.2))⟩

/-- `propers = sorted(list(uniquePropers))` (source line 399). -/
def propers (top : Topology) : List (ℕ × ℕ × ℕ × ℕ) :=
  Finset.sort properLe (uniquePropers top)

/-- The 4-atom chain A-B-C-D used by the spec as a worked example. -/
def chain4 : Topology := ⟨4, [(0, 1), (1, 2), (2, 3)]⟩

/-! ## Template generator registry (`SystemGenerator.__init__`, lines 158-178)

The template generator implementations live in `template_generators.py`,
outside the file under verification; only the registry loop over
`SmallMoleculeTemplateGenerator.__subclasses__()` is part of the source. -/

/-- A raised Python exception; the module only ever raises `ValueError`. -/
inductive GenError where
  | valueError (msg : String)
deriving DecidableEq

/-- Modelled from the spec: a registered template generator implementation
class (`SmallMoleculeTemplateGenerator` subclass).  It exposes its class
name and its class-level `INSTALLED_FORCEFIELDS` list of supported
force-field identifiers. -/
structure TemplateGeneratorCls where
  name : String
  INSTALLED_FORCEFIELDS : List String
deriving DecidableEq

/-- Modelled from the spec: a constructed template generator instance,
holding its molecule cache. -/
structure TemplateGenerator where
  cls : TemplateGeneratorCls
  forcefield : String
  molecules : List Molecule
deriving DecidableEq

/-- Modelled from the spec: constructing a template generator succeeds
exactly when the requested force-field identifier is in the class-level
supported list, and otherwise raises `ValueError`. -/
def TemplateGeneratorCls.construct (cls : TemplateGeneratorCls) (forcefield : String) :
    Except GenError TemplateGenerator :=
  if forcefield ∈ cls.INSTALLED_FORCEFIELDS then
    .ok { cls := cls, forcefield := forcefield, molecules := [] }
  else
    .error (.valueError (cls.name ++ " cannot load " ++ forcefield))

/-- Modelled from the spec: `template_generator.add_molecules` appends the
supplied molecules (if any) to the instance cache. -/
def TemplateGenerator.addMolecules (tg : TemplateGenerator)
    (molecules : Option (List Molecule)) : TemplateGenerator :=
  { tg with molecules := tg.molecules ++ molecules.getD [] }

/-- The registry probing loop (source lines 160-168): start from `None`,
try to construct each subclass in turn, replace the current candidate on
success, swallow the `ValueError` (keeping the previous candidate) on
failure. -/
def selectTemplateGenerator (subclasses : List TemplateGeneratorCls)
    (small_molecule_forcefield : String) : Option TemplateGenerator :=
  subclasses.foldl
    (fun acc cls =>
      match cls.construct small_molecule_forcefield with
      | .ok tg => some tg
      | .error _ => acc)
    none

/-- The Python `repr` of a list of strings, as interpolated by the f-string
at source line 173. -/
def pyListRepr (l : List String) : String :=
  "[" ++ String.intercalate ", " (l.map (fun s => "\x27" ++ s ++ "\x27")) ++ "]"

/-- One diagnostic line of the selection-failure message (source line 173). -/
def backendDiagnosticLine (cls : TemplateGeneratorCls) : String :=
  "  " ++ cls.name ++ ": " ++ pyListRepr cls.INSTALLED_FORCEFIELDS ++ "\n"

/-- The full selection-failure message (source lines 170-173). -/
def noTemplateGeneratorMessage (small_molecule_forcefield : String)
    (subclasses : List TemplateGeneratorCls) : String :=
  subclasses.foldl (fun msg cls => msg ++ backendDiagnosticLine cls)
    ("No registered small molecule template generators could load force field \x27" ++
      small_molecule_forcefield ++ "\x27\n" ++ "Available installed force fields are:\n")

/-! ## `SystemGenerator` state and methods -/

/-- The barostat configuration held on the generator: pressure, temperature
and update frequency copied into each created system. -/
structure BarostatSpec where
  pressure : ℚ
  temperature : ℚ
  frequency : ℚ
deriving DecidableEq

/-- The mutable state of a `SystemGenerator` instance after `__init__`. -/
structure GenState where
  barostat : Option BarostatSpec
  particle_charges : Bool
  exception_charges : Bool
  particle_epsilons : Bool
  exception_epsilons : Bool
  torsions : Bool
  postprocess_system : Option (SystemM → SystemM)
  forcefields : List String
  forcefield_kwargs : List (String × String)
  template_generator : Option TemplateGenerator

/-- `SystemGenerator.add_molecules` (source lines 180-196): raises
`ValueError` when no template generator is registered, even when the
molecule argument is `None`; otherwise forwards to the generator. -/
def SystemGenerator.add_molecules (st : GenState) (molecules : Option (List Molecule)) :
    Except GenError GenState :=
  match st.template_generator with
  | none => .error (.valueError
      "You must have a small molecule residue template generator registered to add small molecules")
  | some tg => .ok { st with template_generator := some (tg.addMolecules molecules) }

/-- `SystemGenerator.__init__` (source lines 48-178): set the five
term-inclusion flags to `True`, store the configuration, run the registry
probing loop when a small-molecule force field is requested (raising the
diagnostic `ValueError` when no subclass accepts it), then unconditionally
call `self.add_molecules(molecules)`. -/
def systemGeneratorInit (subclasses : List TemplateGeneratorCls)
    (forcefields : Option (List String)) (small_molecule_forcefield : Option String)
    (forcefield_kwargs : Option (List (String × String))) (barostat : Option BarostatSpec)
    (molecules : Option (List Molecule)) (postprocess_system : Option (SystemM → SystemM)) :
    Except GenError GenState :=
  let st : GenState :=
    { barostat := barostat
      particle_charges := true
      exception_charges := true
      particle_epsilons := true
      exception_epsilons := true
      torsions := true
      postprocess_system := postprocess_system
      forcefields := forcefields.getD []
      forcefield_kwargs := forcefield_kwargs.getD []
      template_generator := none }
  match small_molecule_forcefield with
  | none => SystemGenerator.add_molecules st molecules
  | some ff =>
    match selectTemplateGenerator subclasses ff with
    | none => .error (.valueError (noTemplateGeneratorMessage ff subclasses))
    | some tg =>
      SystemGenerator.add_molecules { st with template_generator := some tg } molecules

/-- The per-force body of the modification loop (source lines 224-245):
`NonbondedForce` particle charges/epsilons and exception charge
products/epsilons are multiplied by zero when the matching flag is off,
`PeriodicTorsionForce` barrier heights are multiplied by zero when the
torsion flag is off, and every other force class is left untouched. -/
def modifyForce (st : GenState) : OMMForce → OMMForce
  | .nonbonded ps es =>
    .nonbonded
      (ps.map (fun p =>
        { p with
          charge := if st.particle_charges then p.charge else p.charge * 0
          epsilon := if st.particle_epsilons then p.epsilon else p.epsilon * 0 }))
      (es.map (fun e =>
        { e with
          chargeProd := if st.exception_charges then e.chargeProd else e.chargeProd * 0
          epsilon := if st.exception_epsilons then e.epsilon else e.epsilon * 0 }))
  | .periodicTorsion ts =>
    .periodicTorsion
      (ts.map (fun t => { t with K := if st.torsions then t.K else t.K * 0 }))
  | f => f

/-- `SystemGenerator._modify_forces` (source lines 198-245): first append a
fresh `MonteCarloBarostat` reproducing the configured parameters with a
freshly drawn random seed (when a barostat is configured), then run the
modification loop over all forces of the system. -/
def modifyForces (st : GenState) (system : SystemM) (seed : ℤ) : SystemM :=
  let system :=
    match st.barostat with
    | some b =>
      { system with
        forces := system.forces ++
          [OMMForce.monteCarloBarostat b.pressure b.temperature b.frequency seed] }
    | none => system
  { system with forces := system.forces.map (modifyForce st) }

/-- `SystemGenerator.create_system` (source lines 247-283): forward the
supplied molecules to the template generator only when both a generator is
registered and molecules were supplied, delegate to the engine
(`self.forcefield.createSystem`), run `_modify_forces`, then the optional
post-processing hook.  The engine is an external collaborator passed in as
a function. -/
def SystemGenerator.create_system (engine : Topology → List (String × String) → SystemM)
    (st : GenState) (topology : Topology) (molecules : Option (List Molecule)) (seed : ℤ) :
    Except GenError (GenState × SystemM) :=
  let st :=
    match st.template_generator, molecules with
    | some tg, some mols => { st with template_generator := some (tg.addMolecules (some mols)) }
    | _, _ => st
  let system := engine topology st.forcefield_kwargs
  let system := modifyForces st system seed
  let system :=
    match st.postprocess_system with
    | some f => f system
    | none => system
  .ok (st, system)

/-! ## `DummySystemGenerator.create_system` (source lines 303-408) -/

/-- The value actually returned by `DummySystemGenerator.create_system`:
the early `return bondedToAtom` at source line 349 makes the adjacency
list, not a `System`, the function result. -/
inductive DummyResult where
  | adjacency (bondedToAtom : List (Finset ℕ))
  | system (sys : SystemM)
deriving DecidableEq

set_option linter.unusedVariables false in
/-- `DummySystemGenerator.create_system` (source lines 303-408): add one
carbon-mass particle per atom, add the repulsive custom nonbonded force
with one particle entry per atom, build `bondedToAtom`, and then hit the
early `return bondedToAtom` at line 349.  The bond/angle/torsion code
below that line is unreachable. -/
def dummyCreateSystem (top : Topology) : DummyResult :=
  let mass : ℚ := 12
  let system : SystemM := { particles := [], forces := [] }
  let system := { system with particles := system.particles ++ List.replicate top.num_atoms mass }
  let nonbonded : OMMForce := .customNonbonded "100/(r/0.1)^4" "CutoffNonPeriodic" 1 top.num_atoms
  let system := { system with forces := system.forces ++ [nonbonded] }
  let bonded := bondedToAtom top
  DummyResult.adjacency bonded

/-! ## Helper lemmas: adjacency characterization -/

lemma length_addNeighbor (l : List (Finset ℕ)) (a b : ℕ) :
    (addNeighbor l a b).length = l.length := by
  simp [addNeighbor]

lemma mem_addNeighbor_getD (l : List (Finset ℕ)) (a b i x : ℕ) :
    x ∈ (addNeighbor l a b).getD i ∅ ↔
      x ∈ l.getD i ∅ ∨ (i = a ∧ x = b ∧ a < l.length) := by
  unfold addNeighbor
  by_cases hia : i = a
  · subst hia
    by_cases ha : i < l.length
    · simp [List.getD, List.getElem?_set, ha]
      tauto
    · rw [List.set_eq_of_length_le (by omega)]
      simp
      tauto
  · simp [List.getD, List.getElem?_set, Ne.symm hia, hia]

lemma mem_foldl_addNeighbor (bs : List (ℕ × ℕ)) (l : List (Finset ℕ)) (i x : ℕ) :
    x ∈ (bs.foldl (fun l b => addNeighbor (addNeighbor l b.1 b.2) b.2 b.1) l).getD i ∅ ↔
      x ∈ l.getD i ∅ ∨ (i < l.length ∧ ((i, x) ∈ bs ∨ (x, i) ∈ bs)) := by
  induction bs generalizing l with
  | nil => simp
  | cons b rest ih =>
    rw [List.foldl_cons, ih]
    rw [length_addNeighbor, length_addNeighbor]
    rw [mem_addNeighbor_getD, mem_addNeighbor_getD]
    rw [length_addNeighbor]
    constructor
    · rintro (((h | ⟨rfl, rfl, hlen⟩) | ⟨rfl, rfl, hlen⟩) | ⟨hlen, h | h⟩)
      · exact Or.inl h
      · exact Or.inr ⟨hlen, Or.inl (by simp)⟩
      · exact Or.inr ⟨hlen, Or.inr (by simp)⟩
      · exact Or.inr ⟨hlen, Or.inl (List.mem_cons_of_mem _ h)⟩
      · exact Or.inr ⟨hlen, Or.inr (List.mem_cons_of_mem _ h)⟩
    · rintro (h | ⟨hlen, h | h⟩)
      · exact Or.inl (Or.inl (Or.inl h))
      · rcases List.mem_cons.1 h with h | h
        · have h1 : i = b.1 ∧ x = b.2 := ⟨congrArg Prod.fst h, congrArg Prod.snd h⟩
          exact Or.inl (Or.inl (Or.inr ⟨h1.1, h1.2, h1.1 ▸ hlen⟩))
        · exact Or.inr ⟨hlen, Or.inl h⟩
      · rcases List.mem_cons.1 h with h | h
        · have h1 : x = b.1 ∧ i = b.2 := ⟨congrArg Prod.fst h, congrArg Prod.snd h⟩
          exact Or.inl (Or.inr ⟨h1.2, h1.1, h1.2 ▸ hlen⟩)
        · exact Or.inr ⟨hlen, Or.inr h⟩

lemma mem_adj (top : Topology) (i x : ℕ) :
    x ∈ adj top i ↔
      i < top.num_atoms ∧ ((i, x) ∈ top.bonds ∨ (x, i) ∈ top.bonds) := by
  unfold adj bondedToAtom
  rw [mem_foldl_addNeighbor]
  by_cases hi : i < top.num_atoms <;>
    simp [List.getD, List.getElem?_replicate, hi]

lemma mem_foldl_union {α β : Type} [DecidableEq β] (f : α → Finset β) (l : List α)
    (s : Finset β) (x : β) :
    x ∈ l.foldl (fun acc a => acc ∪ f a) s ↔ x ∈ s ∨ ∃ a ∈ l, x ∈ f a := by
  induction l generalizing s with
  | nil => simp
  | cons a rest ih =>
    rw [List.foldl_cons, ih]
    simp [or_assoc]

lemma mem_uniqueAngles (top : Topology) (t : ℕ × ℕ × ℕ) :
    t ∈ uniqueAngles top ↔ ∃ b ∈ top.bonds, t ∈ anglesFromBond (adj top) b := by
  unfold uniqueAngles
  rw [mem_foldl_union]
  simp

lemma sort_finset_eq {α : Type} [DecidableEq α] (r : α → α → Prop) [DecidableRel r]
    [IsTrans α r] [IsAntisymm α r] [IsTotal α r] (s : Finset α) (l : List α)
    (hs : List.Sorted r l) (hn : l.Nodup) (hm : l.toFinset = s) :
    Finset.sort r s = l := by
  apply List.eq_of_perm_of_sorted _ (Finset.sort_sorted r s) hs
  apply List.perm_of_nodup_nodup_toFinset_eq (Finset.sort_nodup r s) hn
  rw [Finset.sort_toFinset, hm]

/-! ## C6: the angle enumeration -/

/-- C6: for every valid bond graph, the angle enumeration is duplicate-free,
is sorted ascending (lexicographically), stores each angle with its outer
atoms in ascending order, every returned angle has its center atom bonded
to both endpoints, and it contains every such canonical angle (each
physical angle is stored exactly once although visited from both
directions of every bond). -/
theorem enumerate_angles_correct (top : Topology)
    (hv : ∀ b ∈ top.bonds, b.1 < top.num_atoms ∧ b.2 < top.num_atoms) :
    (angles top).Nodup ∧
    List.Sorted angleLe (angles top) ∧
    (∀ t ∈ angles top, t.1 ∈ adj top t.2.1 ∧ t.2.2 ∈ adj top t.2.1 ∧ t.1 < t.2.2) ∧
    (∀ a b c : ℕ, a ∈ adj top b → c ∈ adj top b → a < c → (a, b, c) ∈ angles top) := by
  refine ⟨Finset.sort_nodup _ _, Finset.sort_sorted _ _, ?_, ?_⟩
  · intro t ht
    rw [angles, Finset.mem_sort, mem_uniqueAngles] at ht
    obtain ⟨bd, hbd, hmem⟩ := ht
    have hb1 : bd.2 ∈ adj top bd.1 :=
      (mem_adj top bd.1 bd.2).2 ⟨(hv bd hbd).1, Or.inl (by simpa using hbd)⟩
    have hb2 : bd.1 ∈ adj top bd.2 :=
      (mem_adj top bd.2 bd.1).2 ⟨(hv bd hbd).2, Or.inr (by simpa using hbd)⟩
    unfold anglesFromBond at hmem
    rcases Finset.mem_union.1 hmem with hmem | hmem
    · obtain ⟨a, ha, rfl⟩ := Finset.mem_image.1 hmem
      have hane : a ≠ bd.2 := (Finset.mem_erase.1 ha).1
      have hadj : a ∈ adj top bd.1 := (Finset.mem_erase.1 ha).2
      by_cases hlt : a < bd.2
      · simp only [if_pos hlt]
        exact ⟨hadj, hb1, hlt⟩
      · simp only [if_neg hlt]
        exact ⟨hb1, hadj, by omega⟩
    · obtain ⟨a, ha, rfl⟩ := Finset.mem_image.1 hmem
      have hane : a ≠ bd.1 := (Finset.mem_erase.1 ha).1
      have hadj : a ∈ adj top bd.2 := (Finset.mem_erase.1 ha).2
      by_cases hlt : bd.1 < a
      · simp only [if_pos hlt]
        exact ⟨hb2, hadj, hlt⟩
      · simp only [if_neg hlt]
        exact ⟨hadj, hb2, by omega⟩
  · intro a b c ha hc hlt
    rw [angles, Finset.mem_sort, mem_uniqueAngles]
    rcases (mem_adj top b c).1 hc with ⟨_, hbc | hbc⟩
    · refine ⟨(b, c), hbc, ?_⟩
      unfold anglesFromBond
      apply Finset.mem_union_left
      refine Finset.mem_image.2 ⟨a, Finset.mem_erase.2 ⟨by omega, ha⟩, ?_⟩
      simp [hlt]
    · refine ⟨(c, b), hbc, ?_⟩
      unfold anglesFromBond
      apply Finset.mem_union_right
      refine Finset.mem_image.2 ⟨a, Finset.mem_erase.2 ⟨by omega, ha⟩, ?_⟩
      have : ¬ c < a := by omega
      simp [this]

/-- Witness for C6: the theorem instantiated at the 4-atom chain. -/
theorem enumerate_angles_correct_witness :
    (∀ b ∈ chain4.bonds, b.1 < chain4.num_atoms ∧ b.2 < chain4.num_atoms) ∧
    ((angles chain4).Nodup ∧
     List.Sorted angleLe (angles chain4) ∧
     (∀ t ∈ angles chain4,
       t.1 ∈ adj chain4 t.2.1 ∧ t.2.2 ∈ adj chain4 t.2.1 ∧ t.1 < t.2.2) ∧
     (∀ a b c : ℕ, a ∈ adj chain4 b → c ∈ adj chain4 b → a < c →
       (a, b, c) ∈ angles chain4)) :=
  ⟨by decide, enumerate_angles_correct chain4 (by decide)⟩

/-! ## C7: the 4-atom chain example -/

/-- C7: on the chain A-B-C-D (indices 0-1-2-3) the enumeration returns
exactly the angles (A,B,C) and (B,C,D) and exactly the proper torsion
(A,B,C,D). -/
theorem chain4_angles_propers :
    angles chain4 = [(0, 1, 2), (1, 2, 3)] ∧ propers chain4 = [(0, 1, 2, 3)] := by
  have h1 : angles chain4 = [(0, 1, 2), (1, 2, 3)] := by
    unfold angles
    apply sort_finset_eq
    · decide
    · decide
    · decide
  refine ⟨h1, ?_⟩
  unfold propers
  apply sort_finset_eq
  · decide
  · decide
  · show _ = uniquePropers chain4
    rw [uniquePropers, h1]
    decide

/-! ## Registry characterization (C4, C5) -/

lemma selectTG_foldl (subs : List TemplateGeneratorCls) (ff : String)
    (acc : Option TemplateGenerator) :
    subs.foldl
        (fun acc cls =>
          match cls.construct ff with
          | .ok tg => some tg
          | .error _ => acc) acc =
      match (subs.filter (fun c => decide (ff ∈ c.INSTALLED_FORCEFIELDS))).getLast? with
      | some c => some { cls := c, forcefield := ff, molecules := [] }
      | none => acc := by
  induction subs generalizing acc with
  | nil => rfl
  | cons c rest ih =>
    rw [List.foldl_cons, ih]
    by_cases hc : ff ∈ c.INSTALLED_FORCEFIELDS
    · rw [List.filter_cons_of_pos (by simpa using hc), List.getLast?_cons]
      cases hfl : (rest.filter (fun c => decide (ff ∈ c.INSTALLED_FORCEFIELDS))).getLast? with
      | none => simp [hfl, TemplateGeneratorCls.construct, hc]
      | some d => simp [hfl]
    · rw [List.filter_cons_of_neg (by simpa using hc)]
      cases hfl : (rest.filter (fun c => decide (ff ∈ c.INSTALLED_FORCEFIELDS))).getLast? with
      | none => simp [hfl, TemplateGeneratorCls.construct, hc]
      | some d => simp [hfl]

/-- C5: the registry probing loop returns the last successfully constructed
candidate in enumeration order (the last subclass whose supported list
contains the requested identifier), not the first; construction failures
along the way are swallowed and probing continues through all candidates. -/
theorem selectTemplateGenerator_last_wins (subclasses : List TemplateGeneratorCls)
    (small_molecule_forcefield : String) :
    selectTemplateGenerator subclasses small_molecule_forcefield =
      ((subclasses.filter
          (fun c => decide (small_molecule_forcefield ∈ c.INSTALLED_FORCEFIELDS))).getLast?).map
        (fun c =>
          { cls := c, forcefield := small_molecule_forcefield, molecules := [] }) := by
  unfold selectTemplateGenerator
  rw [selectTG_foldl]
  cases (subclasses.filter
      (fun c => decide (small_molecule_forcefield ∈ c.INSTALLED_FORCEFIELDS))).getLast? <;>
    rfl

/-! ## The diagnostic error message (C4) -/

/-- `needle` occurs contiguously inside `hay`. -/
def strContains (needle hay : String) : Prop :=
  ∃ pre post : String, hay = pre ++ needle ++ post

lemma strContains_append_right (s a b : String) (h : strContains s a) :
    strContains s (a ++ b) := by
  obtain ⟨pre, post, rfl⟩ := h
  exact ⟨pre, post ++ b, by rw [String.append_assoc, String.append_assoc]⟩

lemma strContains_self_append (a s : String) : strContains s (a ++ s) :=
  ⟨a, "", by rw [String.append_empty]⟩

lemma strContains_foldl_mono (line : TemplateGeneratorCls → String) (s : String)
    (subs : List TemplateGeneratorCls) (init : String) (h : strContains s init) :
    strContains s (subs.foldl (fun m c => m ++ line c) init) := by
  induction subs generalizing init with
  | nil => exact h
  | cons c rest ih => exact ih (init ++ line c) (strContains_append_right s init (line c) h)

lemma strContains_foldl_line (line : TemplateGeneratorCls → String)
    (subs : List TemplateGeneratorCls) (init : String) (c : TemplateGeneratorCls) :
    c ∈ subs → strContains (line c) (subs.foldl (fun m d => m ++ line d) init) := by
  induction subs generalizing init with
  | nil => intro hc; cases hc
  | cons d rest ih =>
    intro hc
    rcases List.mem_cons.1 hc with rfl | hc
    · exact strContains_foldl_mono line (line c) rest (init ++ line c)
        (strContains_self_append init (line c))
    · exact ih (init ++ line d) hc

/-- C4: when no registered template generator subclass supports the
requested identifier, construction raises a `ValueError` whose message
contains, for every registered subclass, the diagnostic line giving the
class name together with its supported force-field identifiers. -/
theorem init_unsupported_forcefield_error (subclasses : List TemplateGeneratorCls)
    (forcefields : Option (List String)) (ff : String)
    (forcefield_kwargs : Option (List (String × String))) (barostat : Option BarostatSpec)
    (molecules : Option (List Molecule)) (postprocess : Option (SystemM → SystemM))
    (h : ∀ c ∈ subclasses, ff ∉ c.INSTALLED_FORCEFIELDS) :
    systemGeneratorInit subclasses forcefields (some ff) forcefield_kwargs barostat
        molecules postprocess =
      .error (.valueError (noTemplateGeneratorMessage ff subclasses)) ∧
    ∀ c ∈ subclasses,
      strContains (backendDiagnosticLine c) (noTemplateGeneratorMessage ff subclasses) := by
  constructor
  · have hfil : subclasses.filter (fun c => decide (ff ∈ c.INSTALLED_FORCEFIELDS)) = [] :=
      List.filter_eq_nil_iff.2 (fun c hc => by simpa using h c hc)
    have hsel : selectTemplateGenerator subclasses ff = none := by
      unfold selectTemplateGenerator
      rw [selectTG_foldl, hfil]
      rfl
    simp [systemGeneratorInit, hsel]
  · intro c hc
    unfold noTemplateGeneratorMessage
    exact strContains_foldl_line backendDiagnosticLine subclasses _ c hc

/-- A demo registered subclass for witnesses (GAFF-style). -/
def demoGAFF : TemplateGeneratorCls :=
  { name := "GAFFTemplateGenerator"
    INSTALLED_FORCEFIELDS := ["gaff-2.11", "gaff-2.1", "gaff-1.81"] }

/-- A demo registered subclass for witnesses (SMIRNOFF-style). -/
def demoSMIRNOFF : TemplateGeneratorCls :=
  { name := "SMIRNOFFTemplateGenerator"
    INSTALLED_FORCEFIELDS := ["openff-1.0.0", "smirnoff99Frosst-1.1.0"] }

/-- Witness for C4: a concrete unsupported identifier against the two demo
subclasses. -/
theorem init_unsupported_forcefield_error_witness :
    (∀ c ∈ [demoGAFF, demoSMIRNOFF], "bogus-9.9" ∉ c.INSTALLED_FORCEFIELDS) ∧
    (systemGeneratorInit [demoGAFF, demoSMIRNOFF] none (some "bogus-9.9") none none
        none none =
      .error (.valueError (noTemplateGeneratorMessage "bogus-9.9" [demoGAFF, demoSMIRNOFF])) ∧
    ∀ c ∈ [demoGAFF, demoSMIRNOFF],
      strContains (backendDiagnosticLine c)
        (noTemplateGeneratorMessage "bogus-9.9" [demoGAFF, demoSMIRNOFF])) :=
  ⟨by decide,
   init_unsupported_forcefield_error [demoGAFF, demoSMIRNOFF] none "bogus-9.9" none none
     none none (by decide)⟩

/-! ## C3: construction with no small-molecule force field requested -/

/-- C3 (code-bug evidence): requesting no small-molecule force field
(`small_molecule_forcefield=None`) with no molecules never yields a
generator.  The registry step is skipped as the claim says, but the
unconditional `self.add_molecules(molecules)` call at source line 178
raises the add-molecules `ValueError` because no template generator is
registered, so construction always fails instead of succeeding. -/
theorem init_none_forcefield_raises (subclasses : List TemplateGeneratorCls)
    (forcefields : Option (List String)) (forcefield_kwargs : Option (List (String × String)))
    (barostat : Option BarostatSpec) (postprocess : Option (SystemM → SystemM)) :
    systemGeneratorInit subclasses forcefields none forcefield_kwargs barostat none
        postprocess =
      .error (.valueError
        "You must have a small molecule residue template generator registered to add small molecules") :=
  rfl

/-! ## C9: all five term-inclusion flags start true -/

lemma modifyForce_id (st : GenState) (h1 : st.particle_charges = true)
    (h2 : st.exception_charges = true) (h3 : st.particle_epsilons = true)
    (h4 : st.exception_epsilons = true) (h5 : st.torsions = true) (f : OMMForce) :
    modifyForce st f = f := by
  cases f <;> simp [modifyForce, h1, h2, h3, h4, h5]

/-- C9: whenever `__init__` returns a generator, all five term-inclusion
flags are `True` (regardless of the constructor arguments), so the
force-modification loop leaves every force of a generated system
unchanged. -/
theorem init_flags_all_true (subclasses : List TemplateGeneratorCls)
    (forcefields : Option (List String)) (small_molecule_forcefield : Option String)
    (forcefield_kwargs : Option (List (String × String))) (barostat : Option BarostatSpec)
    (molecules : Option (List Molecule)) (postprocess : Option (SystemM → SystemM))
    (st : GenState)
    (h : systemGeneratorInit subclasses forcefields small_molecule_forcefield
        forcefield_kwargs barostat molecules postprocess = .ok st) :
    st.particle_charges = true ∧ st.exception_charges = true ∧
    st.particle_epsilons = true ∧ st.exception_epsilons = true ∧ st.torsions = true ∧
    ∀ f, modifyForce st f = f := by
  have hflags : st.particle_charges = true ∧ st.exception_charges = true ∧
      st.particle_epsilons = true ∧ st.exception_epsilons = true ∧ st.torsions = true := by
    unfold systemGeneratorInit at h
    cases small_molecule_forcefield with
    | none => simp [SystemGenerator.add_molecules] at h
    | some ff =>
      dsimp only at h
      cases hsel : selectTemplateGenerator subclasses ff with
      | none => rw [hsel] at h; simp at h
      | some tg =>
        rw [hsel] at h
        simp [SystemGenerator.add_molecules] at h
        subst h
        simp
  exact ⟨hflags.1, hflags.2.1, hflags.2.2.1, hflags.2.2.2.1, hflags.2.2.2.2,
    modifyForce_id st hflags.1 hflags.2.1 hflags.2.2.1 hflags.2.2.2.1 hflags.2.2.2.2⟩

/-- The generator state produced by a successful demo construction. -/
def demoState : GenState :=
  { barostat := none
    particle_charges := true
    exception_charges := true
    particle_epsilons := true
    exception_epsilons := true
    torsions := true
    postprocess_system := none
    forcefields := []
    forcefield_kwargs := []
    template_generator := some { cls := demoGAFF, forcefield := "gaff-2.11", molecules := [] } }

/-- Witness for C9: a concrete successful construction. -/
theorem init_flags_all_true_witness :
    systemGeneratorInit [demoGAFF] none (some "gaff-2.11") none none none none =
      .ok demoState ∧
    (demoState.particle_charges = true ∧ demoState.exception_charges = true ∧
     demoState.particle_epsilons = true ∧ demoState.exception_epsilons = true ∧
     demoState.torsions = true ∧ ∀ f, modifyForce demoState f = f) :=
  ⟨rfl, init_flags_all_true [demoGAFF] none (some "gaff-2.11") none none none none
    demoState rfl⟩

/-! ## C8: disabling the torsion flag -/

lemma modifyForce_eq_harmonicBond (st : GenState) (f : OMMForce) (l : List BondTerm) :
    modifyForce st f = .harmonicBond l ↔ f = .harmonicBond l := by
  cases f <;> simp [modifyForce]

lemma modifyForce_eq_harmonicAngle (st : GenState) (f : OMMForce) (l : List AngleTerm) :
    modifyForce st f = .harmonicAngle l ↔ f = .harmonicAngle l := by
  cases f <;> simp [modifyForce]

lemma modifyForce_eq_periodicTorsion (st : GenState) (f : OMMForce) (ts : List TorsionTerm) :
    modifyForce st f = .periodicTorsion ts ↔
      ∃ ts0, f = .periodicTorsion ts0 ∧
        ts = ts0.map (fun t => { t with K := if st.torsions then t.K else t.K * 0 }) := by
  cases f <;> simp [modifyForce]
  exact eq_comm

lemma modifyForces_forces (st : GenState) (system : SystemM) (seed : ℤ) :
    (modifyForces st system seed).forces =
      (system.forces ++
        (match st.barostat with
         | some b => [OMMForce.monteCarloBarostat b.pressure b.temperature b.frequency seed]
         | none => [])).map (modifyForce st) := by
  unfold modifyForces
  cases st.barostat <;> simp

/-- C8: with the torsion term-inclusion flag disabled, every periodic
torsion term of any system returned by the force-modification pass has
zero barrier height, while the harmonic bond and harmonic angle forces are
exactly the ones of the input system; this holds on every call, so also on
repeated calls. -/
theorem torsion_flag_zeroes (st : GenState) (system : SystemM) (seed : ℤ)
    (h : st.torsions = false) :
    (∀ ts, OMMForce.periodicTorsion ts ∈ (modifyForces st system seed).forces →
      ∀ t ∈ ts, t.K = 0) ∧
    (∀ l, OMMForce.harmonicBond l ∈ (modifyForces st system seed).forces ↔
      OMMForce.harmonicBond l ∈ system.forces) ∧
    (∀ l, OMMForce.harmonicAngle l ∈ (modifyForces st system seed).forces ↔
      OMMForce.harmonicAngle l ∈ system.forces) := by
  rw [modifyForces_forces]
  refine ⟨?_, ?_, ?_⟩
  · intro ts hts t ht
    obtain ⟨f, _, hf⟩ := List.mem_map.1 hts
    obtain ⟨ts0, rfl, rfl⟩ := (modifyForce_eq_periodicTorsion st f ts).1 hf
    obtain ⟨t0, _, rfl⟩ := List.mem_map.1 ht
    simp [h]
  · intro l
    constructor
    · intro hl
      obtain ⟨f, hf, hfe⟩ := List.mem_map.1 hl
      rw [modifyForce_eq_harmonicBond] at hfe
      subst hfe
      rcases List.mem_append.1 hf with hf | hf
      · exact hf
      · cases hb : st.barostat <;> rw [hb] at hf <;> simp at hf
    · intro hl
      refine List.mem_map.2 ⟨.harmonicBond l, List.mem_append_left _ hl, ?_⟩
      rw [modifyForce_eq_harmonicBond]
  · intro l
    constructor
    · intro hl
      obtain ⟨f, hf, hfe⟩ := List.mem_map.1 hl
      rw [modifyForce_eq_harmonicAngle] at hfe
      subst hfe
      rcases List.mem_append.1 hf with hf | hf
      · exact hf
      · cases hb : st.barostat <;> rw [hb] at hf <;> simp at hf
    · intro hl
      refine List.mem_map.2 ⟨.harmonicAngle l, List.mem_append_left _ hl, ?_⟩
      rw [modifyForce_eq_harmonicAngle]

/-- A generator state with the torsion flag disabled, for the witness. -/
def demoStateNoTorsions : GenState :=
  { demoState with torsions := false }

/-- A small demo system with one force of each bonded kind. -/
def demoSystem : SystemM :=
  { particles := [12, 12, 12, 12]
    forces :=
      [.harmonicBond [{ p1 := 0, p2 := 1, r0 := 1, K := 5 }],
       .harmonicAngle [{ p1 := 0, p2 := 1, p3 := 2, theta0 := 2, K := 7 }],
       .periodicTorsion [{ p1 := 0, p2 := 1, p3 := 2, p4 := 3, periodicity := 3,
                           phase := 0, K := 9 }]] }

/-- Witness for C8: the theorem instantiated at a concrete system. -/
theorem torsion_flag_zeroes_witness :
    demoStateNoTorsions.torsions = false ∧
    ((∀ ts, OMMForce.periodicTorsion ts ∈ (modifyForces demoStateNoTorsions demoSystem 0).forces →
       ∀ t ∈ ts, t.K = 0) ∧
     (∀ l, OMMForce.harmonicBond l ∈ (modifyForces demoStateNoTorsions demoSystem 0).forces ↔
       OMMForce.harmonicBond l ∈ demoSystem.forces) ∧
     (∀ l, OMMForce.harmonicAngle l ∈ (modifyForces demoStateNoTorsions demoSystem 0).forces ↔
       OMMForce.harmonicAngle l ∈ demoSystem.forces)) :=
  ⟨rfl, torsion_flag_zeroes demoStateNoTorsions demoSystem 0 rfl⟩

/-! ## C10: the modification pass preserves everything else -/

/-- The frame relation between an input force and its modified output: the
same force kind; for nonbonded forces, particle-for-particle equal sigmas
and exception-for-exception equal index pairs and sigmas; for periodic
torsion forces, term-for-term equal particle indices, periodicities and
phases; any other force kind is completely unchanged. -/
def framePreservedForce : OMMForce → OMMForce → Prop := fun f g =>
  match f, g with
  | .nonbonded ps es, .nonbonded qs gs =>
    List.Forall₂ (fun p q => p.sigma = q.sigma) ps qs ∧
    List.Forall₂ (fun e r => e.p1 = r.p1 ∧ e.p2 = r.p2 ∧ e.sigma = r.sigma) es gs
  | .periodicTorsion ts, .periodicTorsion us =>
    List.Forall₂
      (fun t u => t.p1 = u.p1 ∧ t.p2 = u.p2 ∧ t.p3 = u.p3 ∧ t.p4 = u.p4 ∧
        t.periodicity = u.periodicity ∧ t.phase = u.phase) ts us
  | f, g => f = g

lemma framePreservedForce_modifyForce (st : GenState) (f : OMMForce) :
    framePreservedForce f (modifyForce st f) := by
  cases f with
  | nonbonded ps es =>
    refine ⟨?_, ?_⟩ <;>
      · rw [List.forall₂_map_right_iff]
        exact List.forall₂_same.2 (fun x _ => by simp)
  | periodicTorsion ts =>
    show List.Forall₂ _ ts (ts.map _)
    rw [List.forall₂_map_right_iff]
    exact List.forall₂_same.2 (fun x _ => by simp)
  | customNonbonded e m c n => rfl
  | harmonicBond l => rfl
  | harmonicAngle l => rfl
  | monteCarloBarostat p t fr sd => rfl

/-- C10: whatever the flag settings, the force-modification pass leaves
every original force related to its output by `framePreservedForce`: only
particle charges, particle epsilons, exception charge products, exception
epsilons and torsion barrier heights can change; nonbonded sigmas,
exception index pairs and sigmas, torsion particle indices, periodicities
and phases, and every force of any other class are preserved. -/
theorem modify_forces_frame (st : GenState) (system : SystemM) (seed : ℤ) :
    List.Forall₂ framePreservedForce system.forces
      ((modifyForces st system seed).forces.take system.forces.length) := by
  have htake : (modifyForces st system seed).forces.take system.forces.length =
      system.forces.map (modifyForce st) := by
    rw [modifyForces_forces, List.map_append]
    exact List.take_left' (by simp)
  rw [htake, List.forall₂_map_right_iff]
  exact List.forall₂_same.2 (fun f _ => framePreservedForce_modifyForce st f)

/-! ## C2: molecules supplied with no template generator installed -/

/-- The empty OpenMM system, as returned by the demo engine. -/
def emptySystem : SystemM := { particles := [], forces := [] }

/-- A demo engine: ignores its arguments and returns the empty system. -/
def engineDemo : Topology → List (String × String) → SystemM := fun _ _ => emptySystem

/-- A generator state with no template generator installed. -/
def stNoBackend : GenState :=
  { barostat := none
    particle_charges := true
    exception_charges := true
    particle_epsilons := true
    exception_epsilons := true
    torsions := true
    postprocess_system := none
    forcefields := []
    forcefield_kwargs := []
    template_generator := none }

/-- C2 counterexample: calling `create_system` with molecules supplied and
no template generator installed does not fail; it returns a system
normally (the molecules are dropped by the guard at source line 270). -/
theorem create_system_no_backend_counterexample :
    SystemGenerator.create_system engineDemo stNoBackend chain4 (some [0]) 0 =
      .ok (stNoBackend, emptySystem) ∧
    (SystemGenerator.create_system engineDemo stNoBackend chain4 (some [0]) 0).isOk = true :=
  ⟨rfl, rfl⟩

/-- C2 amended: when no template generator is installed, supplying
molecules to `create_system` raises nothing and has no effect: the call
behaves exactly as if no molecules had been supplied (only the separate
`add_molecules` method raises the usage error). -/
theorem create_system_ignores_molecules_without_backend
    (engine : Topology → List (String × String) → SystemM) (st : GenState)
    (topology : Topology) (mols : List Molecule) (seed : ℤ)
    (h : st.template_generator = none) :
    SystemGenerator.create_system engine st topology (some mols) seed =
      SystemGenerator.create_system engine st topology none seed := by
  unfold SystemGenerator.create_system
  rw [h]

/-- Witness for C2's amended claim at concrete inputs. -/
theorem create_system_ignores_molecules_without_backend_witness :
    stNoBackend.template_generator = none ∧
    SystemGenerator.create_system engineDemo stNoBackend chain4 (some [1]) 0 =
      SystemGenerator.create_system engineDemo stNoBackend chain4 none 0 :=
  ⟨rfl, create_system_ignores_molecules_without_backend engineDemo stNoBackend chain4 [1] 0
    rfl⟩

/-! ## C1: what `DummySystemGenerator.create_system` returns -/

/-- C1 (code-bug evidence): `DummySystemGenerator.create_system` never
returns a `System` at all: for every topology it returns the raw
`bondedToAtom` adjacency list (never a `DummyResult.system`), because of
the early `return bondedToAtom` at source line 349; the concrete
evaluation shows the value on the 4-atom chain. -/
theorem dummy_create_system_returns_adjacency :
    (∀ top : Topology, dummyCreateSystem top = DummyResult.adjacency (bondedToAtom top)) ∧
    dummyCreateSystem chain4 = DummyResult.adjacency [{1}, {0, 2}, {1, 3}, {2}] := by
  constructor
  · intro top
    rfl
  · have hb : bondedToAtom chain4 = [{1}, {0, 2}, {1, 3}, {2}] := by decide
    show DummyResult.adjacency (bondedToAtom chain4) = _
    rw [hb]
